import Mathlib

/-!
Verification of the ChatBot platform core (Node backend in BACKEND_README.md,
React front end in src/pages/Chat.tsx, src/pages/Dashboard.tsx).

The backend routes in server.js are embedded as pure Lean functions over an
explicit project store (a list, in insertion order, standing for the MongoDB
collection).  HTTP failure responses are embedded as `Except (Nat × String)`
values carrying the status code and the JSON message field.  The front-end
sendMessage flow of Chat.tsx is embedded as a function from the component
state to the observable effects (the POST body, any toast, the final
message list).
-/

namespace ChatBot

/-- One conversation turn as it travels on the wire.  The role is a free
string: the server spreads the caller-supplied message objects into the
upstream payload without inspecting them, so nothing constrains the role
to user or assistant on the backend side. -/
structure Message where
  role : String
  content : String
deriving DecidableEq, Repr

/-- A project document, as in the mongoose Project schema: name, systemPrompt,
owning userId, createdAt timestamp (modelled as a Nat), plus the document id. -/
structure Project where
  _id : String
  name : String
  systemPrompt : String
  userId : String
  createdAt : Nat
deriving DecidableEq, Repr

/-- Model of the JavaScript truthiness idiom `s || fallback` on strings:
the empty string is falsy, every other string is kept. -/
def jsOrString (s fallback : String) : String :=
  if s = "" then fallback else s

/-- Model of String.prototype.trim on the character list: drop leading
whitespace characters. -/
def jsTrimLeftChars : List Char → List Char
  | [] => []
  | c :: cs => if c.isWhitespace then jsTrimLeftChars cs else c :: cs

/-- Model of String.prototype.trim: strip whitespace from both ends. -/
def jsTrim (s : String) : String :=
  ⟨(jsTrimLeftChars (jsTrimLeftChars s.data).reverse).reverse⟩

/-- Replace the first occurrence of a pattern in a character list, as
String.prototype.replace does with a string pattern.  If the pattern does
not occur the list is returned unchanged. -/
def replaceFirstChars (pat rep : List Char) : List Char → List Char
  | [] => []
  | c :: cs =>
    if pat ≠ [] ∧ (c :: cs).take pat.length = pat then
      rep ++ (c :: cs).drop pat.length
    else
      c :: replaceFirstChars pat rep cs

/-- Replace the first occurrence of pat in s by rep, as the JavaScript
expression `s.replace(pat, rep)` with a string pattern. -/
def replaceFirst (s pat rep : String) : String :=
  ⟨replaceFirstChars pat.data rep.data s.data⟩

/-- Outcome of jwt.verify on a token string, from the auth middleware in
server.js.  The three failure constructors stand for the three ways
jsonwebtoken rejects a token: not decodable, signature mismatch, expiry in
the past.  The middleware never looks at which one occurred. -/
inductive JwtResult where
  | valid (userId : String)
  | malformed
  | badSignature
  | expired
deriving DecidableEq, Repr

/-- The token the auth middleware extracts from the Authorization header:
`req.header('Authorization')?.replace('Bearer ', '')`. -/
def tokenOf (authHeader : Option String) : Option String :=
  authHeader.map (fun h => replaceFirst h "Bearer " "")

/-- The auth middleware of server.js.  Its body is one try/catch: a missing
header, an empty extracted token (`if (!token) throw`), and every jwt.verify
failure all land in the same catch, which answers 401 with the one message
"Please authenticate".  On success the decoded userId is passed on. -/
def auth (authHeader : Option String) (jwtVerify : String → JwtResult) :
    Except (Nat × String) String :=
  match tokenOf authHeader with
  | none => .error (401, "Please authenticate")
  | some t =>
    if t = "" then .error (401, "Please authenticate")
    else
      match jwtVerify t with
      | .valid uid => .ok uid
      | .malformed => .error (401, "Please authenticate")
      | .badSignature => .error (401, "Please authenticate")
      | .expired => .error (401, "Please authenticate")

/-- POST /projects from server.js.  The handler constructs the document and
calls save(); the mongoose `required: true` validator on a String path
rejects a missing or empty-string value but applies no trimming, and the
resulting ValidationError is caught by the generic catch, which answers
500 "Server error".  Returns the response and the store after the call. -/
def postProjects (store : List Project) (userId name systemPrompt : String)
    (newId : String) (now : Nat) :
    Except (Nat × String) Project × List Project :=
  if name = "" ∨ systemPrompt = "" then
    (.error (500, "Server error"), store)
  else
    let p : Project := ⟨newId, name, systemPrompt, userId, now⟩
    (.ok p, store ++ [p])

/-- The sort key of GET /projects: `{ createdAt: -1 }`, createdAt descending,
so a comes before b when b.createdAt ≤ a.createdAt. -/
def laterFirst (a b : Project) : Prop :=
  b.createdAt ≤ a.createdAt

instance : DecidableRel laterFirst :=
  fun a b => Nat.decLe b.createdAt a.createdAt

instance : IsTotal Project laterFirst :=
  ⟨fun a b => Nat.le_total b.createdAt a.createdAt⟩

instance : IsTrans Project laterFirst :=
  ⟨fun _ _ _ h₁ h₂ => Nat.le_trans h₂ h₁⟩

/-- GET /projects from server.js:
`Project.find({ userId: req.userId }).sort({ createdAt: -1 })` — the
documents owned by the requesting user, sorted by createdAt descending. -/
def getProjects (store : List Project) (userId : String) : List Project :=
  List.insertionSort laterFirst (store.filter (fun p => p.userId == userId))

/-- The ownership lookup inside POST /chat:
`Project.findOne({ _id: projectId, userId: req.userId })` — the first
document matching both the id and the owner, if any. -/
def findOwnedProject (store : List Project) (projectId userId : String) :
    Option Project :=
  store.find? (fun p => p._id == projectId && p.userId == userId)

/-- The parsed JSON body of the upstream completions response as the handler
reads it: an optional error field (whose message may itself be absent) and
the list of choice texts (`choices[i].message.content`). -/
structure UpstreamData where
  errorMsg : Option (Option String)
  choices : List String
deriving DecidableEq, Repr

/-- Result of the single fetch to the upstream provider.  netFailure is the
fetch promise rejecting (network error, or the runtime tearing the socket
down: the code itself configures no timeout), which the handler catch maps
to a 500. -/
inductive UpstreamResult where
  | netFailure
  | ok (data : UpstreamData)
deriving DecidableEq, Repr

/-- The upstream request body assembled by POST /chat:
`[{ role: 'system', content: project.systemPrompt }, ...messages]`. -/
def upstreamPayload (project : Project) (messages : List Message) :
    List Message :=
  ⟨"system", project.systemPrompt⟩ :: messages

/-- Everything observable about one POST /chat invocation: the HTTP result,
the list of request bodies actually sent upstream, and the project store
after the call. -/
structure ChatOutcome where
  result : Except (Nat × String) String
  upstreamRequests : List (List Message)
  finalStore : List Project
deriving Repr

/-- POST /chat from server.js.  Resolve the project through findOwnedProject
(404 "Project not found" when the lookup misses), assemble the payload,
perform the one fetch, then read the body: a provider error field answers
500 with its message (or "LLM error" when the message is falsy), an absent
first choice makes `data.choices[0].message.content` throw into the catch
(500 "Failed to get response"), and otherwise the first choice text is
returned.  The `file` argument stands for the uploaded attachment; the
handler body never references an uploaded file (there is no multipart
middleware and no `req.file` access), and the store is never written. -/
def postChat (store : List Project) (userId projectId : String)
    (messages : List Message) (file : Option String)
    (upstream : UpstreamResult) : ChatOutcome :=
  match findOwnedProject store projectId userId with
  | none => ⟨.error (404, "Project not found"), [], store⟩
  | some project =>
    let payload := upstreamPayload project messages
    match upstream with
    | .netFailure => ⟨.error (500, "Failed to get response"), [payload], store⟩
    | .ok data =>
      match data.errorMsg with
      | some m => ⟨.error (500, jsOrString (m.getD "") "LLM error"), [payload], store⟩
      | none =>
        match data.choices with
        | [] => ⟨.error (500, "Failed to get response"), [payload], store⟩
        | t :: _ => ⟨.ok t, [payload], store⟩

/-- The Chat.tsx component state that sendMessage and the Send button read:
the textarea value, the selected file (its name, if one is chosen), and the
in-flight flag. -/
structure ChatState where
  input : String
  selectedFile : Option String
  isSending : Bool
deriving DecidableEq, Repr

/-- The user message sendMessage constructs:
`{ role: 'user', content: input || 'Please analyze the uploaded file' }`. -/
def buildUserMessage (input : String) : Message :=
  ⟨"user", jsOrString input "Please analyze the uploaded file"⟩

/-- The observable effects of one sendMessage invocation: the messages array
posted to /chat (none when no request is made), the title of any toast
raised by this invocation, and the component message list afterwards. -/
structure SendEffects where
  upstreamCall : Option (List Message)
  toast : Option String
  finalMessages : List Message
deriving DecidableEq, Repr

/-- sendMessage from Chat.tsx.  The guard
`if ((!input.trim() && !selectedFile) || isSending) return;` exits silently
— no request, no toast, no state change.  Otherwise the user message is
appended and posted; on a failed POST the catch toasts
"Failed to send message", on success the assistant reply is appended. -/
def sendMessage (s : ChatState) (messages : List Message)
    (postResponse : Except Unit String) : SendEffects :=
  if (jsTrim s.input = "" ∧ s.selectedFile = none) ∨ s.isSending then
    ⟨none, none, messages⟩
  else
    let updated := messages ++ [buildUserMessage s.input]
    match postResponse with
    | .ok reply => ⟨some updated, none, updated ++ [⟨"assistant", reply⟩]⟩
    | .error _ => ⟨some updated, some "Failed to send message", updated⟩

/-- The disabled predicate of the Send button in Chat.tsx:
`disabled={!input.trim() || isSending}`.  The selected file is not
consulted. -/
def sendButtonDisabled (s : ChatState) : Bool :=
  (jsTrim s.input == "") || s.isSending

/-- Clicking the Send button: a disabled button does not fire its onClick
handler, so sendMessage runs only when the disabled predicate is false. -/
def clickSend (s : ChatState) (messages : List Message)
    (postResponse : Except Unit String) : SendEffects :=
  if sendButtonDisabled s then ⟨none, none, messages⟩
  else sendMessage s messages postResponse

/-- handleKeyDown from Chat.tsx: Enter without shift calls sendMessage;
every other key does nothing. -/
def handleKeyDown (key : String) (shiftKey : Bool) (s : ChatState)
    (messages : List Message) (postResponse : Except Unit String) :
    SendEffects :=
  if key = "Enter" ∧ shiftKey = false then sendMessage s messages postResponse
  else ⟨none, none, messages⟩

/-! ### Helper lemmas about the POST /chat handler -/

/-- When the ownership lookup misses, POST /chat makes no upstream request. -/
theorem postChat_requests_of_none {store : List Project}
    {userId projectId : String} (msgs : List Message) (file : Option String)
    (up : UpstreamResult)
    (h : findOwnedProject store projectId userId = none) :
    (postChat store userId projectId msgs file up).upstreamRequests = [] := by
  unfold postChat
  rw [h]

/-- When the ownership lookup hits, POST /chat makes exactly one upstream
request, whose body is the system turn followed by the caller messages. -/
theorem postChat_requests_of_some {store : List Project}
    {userId projectId : String} {project : Project} (msgs : List Message)
    (file : Option String) (up : UpstreamResult)
    (h : findOwnedProject store projectId userId = some project) :
    (postChat store userId projectId msgs file up).upstreamRequests
      = [upstreamPayload project msgs] := by
  unfold postChat
  rw [h]
  cases up with
  | netFailure => rfl
  | ok data =>
    obtain ⟨em, ch⟩ := data
    cases em with
    | some m => rfl
    | none => cases ch <;> rfl

/-- POST /chat never writes the project store. -/
theorem postChat_finalStore (store : List Project) (userId projectId : String)
    (msgs : List Message) (file : Option String) (up : UpstreamResult) :
    (postChat store userId projectId msgs file up).finalStore = store := by
  unfold postChat
  cases h : findOwnedProject store projectId userId with
  | none => rfl
  | some project =>
    cases up with
    | netFailure => rfl
    | ok data =>
      obtain ⟨em, ch⟩ := data
      cases em with
      | some m => rfl
      | none => cases ch <;> rfl

/-! ### Claim theorems -/

/-- C1: for every relay call with a resolved project, prior history and a
nonempty new user turn, the upstream request body is exactly the single
system turn carrying the project system prompt, then the prior history in
order, then the new user turn.  The messages argument is exactly what
sendMessage posts: the history with the freshly built user message
appended. -/
theorem chat_payload_is_system_history_newturn
    (store : List Project) (userId projectId : String) (project : Project)
    (history : List Message) (input : String) (file : Option String)
    (up : UpstreamResult)
    (hproj : findOwnedProject store projectId userId = some project)
    (hinput : input ≠ "") :
    (postChat store userId projectId (history ++ [buildUserMessage input])
        file up).upstreamRequests
      = [Message.mk "system" project.systemPrompt
          :: (history ++ [Message.mk "user" input])] := by
  have hb : buildUserMessage input = ⟨"user", input⟩ := by
    unfold buildUserMessage jsOrString
    rw [if_neg hinput]
  rw [postChat_requests_of_some (history ++ [buildUserMessage input]) file up
      hproj, hb]
  rfl

/-- C1 witness: history user "hi", new text "how are you", prompt PROMPT
give the upstream sequence system PROMPT, user "hi", user "how are you". -/
theorem chat_payload_is_system_history_newturn_witness :
    (postChat [⟨"p1", "proj", "PROMPT", "alice", 0⟩] "alice" "p1"
        ([⟨"user", "hi"⟩] ++ [buildUserMessage "how are you"]) none
        (.ok ⟨none, ["fine"]⟩)).upstreamRequests
      = [Message.mk "system" "PROMPT"
          :: ([⟨"user", "hi"⟩] ++ [Message.mk "user" "how are you"])] :=
  chat_payload_is_system_history_newturn
    [⟨"p1", "proj", "PROMPT", "alice", 0⟩] "alice" "p1"
    ⟨"p1", "proj", "PROMPT", "alice", 0⟩ [⟨"user", "hi"⟩] "how are you" none
    (.ok ⟨none, ["fine"]⟩) (by decide) (by decide)

/-- C2: a project id that matches nothing in the store and a project id whose
matching documents are all owned by someone else produce the very same 404
"Project not found" result, so a non-owner cannot tell a foreign project
from a nonexistent one. -/
theorem chat_foreign_equals_nonexistent
    (store₁ : List Project) (userId₁ projectId₁ : String)
    (msgs₁ : List Message) (file₁ : Option String) (up₁ : UpstreamResult)
    (store₂ : List Project) (userId₂ projectId₂ : String)
    (msgs₂ : List Message) (file₂ : Option String) (up₂ : UpstreamResult)
    (h₁ : ∀ p ∈ store₁, p._id ≠ projectId₁)
    (h₂ : ∀ p ∈ store₂, p._id = projectId₂ → p.userId ≠ userId₂) :
    (postChat store₁ userId₁ projectId₁ msgs₁ file₁ up₁).result
        = .error (404, "Project not found")
    ∧ (postChat store₂ userId₂ projectId₂ msgs₂ file₂ up₂).result
        = (postChat store₁ userId₁ projectId₁ msgs₁ file₁ up₁).result := by
  have f₁ : findOwnedProject store₁ projectId₁ userId₁ = none := by
    unfold findOwnedProject
    rw [List.find?_eq_none]
    intro p hp
    simp only [Bool.and_eq_true, beq_iff_eq, not_and]
    intro hid
    exact absurd hid (h₁ p hp)
  have f₂ : findOwnedProject store₂ projectId₂ userId₂ = none := by
    unfold findOwnedProject
    rw [List.find?_eq_none]
    intro p hp
    simp only [Bool.and_eq_true, beq_iff_eq, not_and]
    intro hid
    exact h₂ p hp hid
  constructor
  · unfold postChat
    rw [f₁]
  · unfold postChat
    rw [f₁, f₂]

/-- C2 witness: an empty store and a store holding the project owned by
carol, queried by bob, answer with the identical 404 result. -/
theorem chat_foreign_equals_nonexistent_witness :
    (postChat [] "alice" "p1" [] none .netFailure).result
        = .error (404, "Project not found")
    ∧ (postChat [⟨"p2", "n", "s", "carol", 0⟩] "bob" "p2" [] none
          .netFailure).result
        = (postChat [] "alice" "p1" [] none .netFailure).result :=
  chat_foreign_equals_nonexistent [] "alice" "p1" [] none .netFailure
    [⟨"p2", "n", "s", "carol", 0⟩] "bob" "p2" [] none .netFailure
    (by decide) (by decide)

/-- C3: whatever makes token verification fail — header absent, extracted
token empty, token malformed, signature invalid, or token expired — the
middleware answers the one 401 "Please authenticate" result.  The
middleware is a total Lean function, so no input makes it diverge or
escape with an exception. -/
theorem auth_single_unauthenticated_signal
    (authHeader : Option String) (jwtVerify : String → JwtResult)
    (h : ∀ t, tokenOf authHeader = some t → t ≠ "" →
        jwtVerify t = .malformed ∨ jwtVerify t = .badSignature
          ∨ jwtVerify t = .expired) :
    auth authHeader jwtVerify = .error (401, "Please authenticate") := by
  unfold auth
  cases ht : tokenOf authHeader with
  | none => rfl
  | some t =>
    by_cases he : t = ""
    · simp [he]
    · rcases h t ht he with h' | h' | h' <;> simp [he, h']

/-- C3 witness: a header carrying a token whose signature check fails is
answered with 401 "Please authenticate". -/
theorem auth_single_unauthenticated_signal_witness :
    auth (some "Bearer forged") (fun _ => JwtResult.badSignature)
      = .error (401, "Please authenticate") :=
  auth_single_unauthenticated_signal (some "Bearer forged")
    (fun _ => JwtResult.badSignature) (fun _ _ _ => Or.inr (Or.inl rfl))

/-- C4: GET /projects returns the projects of the requesting user and no
others — every returned document is a store document owned by the user,
every store document owned by the user is returned — and the returned list
is ordered by createdAt with the most recent first. -/
theorem getProjects_exactly_owned_most_recent_first
    (store : List Project) (userId : String) :
    (∀ p ∈ getProjects store userId, p ∈ store ∧ p.userId = userId)
    ∧ (∀ p ∈ store, p.userId = userId → p ∈ getProjects store userId)
    ∧ (getProjects store userId).Pairwise
        (fun a b => b.createdAt ≤ a.createdAt) := by
  refine ⟨?_, ?_, ?_⟩
  · intro p hp
    rw [getProjects, List.mem_insertionSort, List.mem_filter] at hp
    exact ⟨hp.1, by simpa using hp.2⟩
  · intro p hp hu
    rw [getProjects, List.mem_insertionSort, List.mem_filter]
    exact ⟨hp, by simpa using hu⟩
  · exact List.sorted_insertionSort laterFirst
      (store.filter (fun p => p.userId == userId))

/-- C4 witness: for a store holding two alice projects (createdAt 1 and 5)
and one bob project, the theorem instantiates to a closed statement over
that store; the returned list is the two alice projects, newest first. -/
theorem getProjects_exactly_owned_most_recent_first_witness :
    ((∀ p ∈ getProjects [⟨"a", "n", "s", "alice", 1⟩,
          ⟨"b", "n", "s", "alice", 5⟩, ⟨"c", "n", "s", "bob", 3⟩] "alice",
        p ∈ [⟨"a", "n", "s", "alice", 1⟩, ⟨"b", "n", "s", "alice", 5⟩,
          ⟨"c", "n", "s", "bob", 3⟩] ∧ p.userId = "alice")
    ∧ (∀ p ∈ [⟨"a", "n", "s", "alice", 1⟩, ⟨"b", "n", "s", "alice", 5⟩,
          ⟨"c", "n", "s", "bob", 3⟩], p.userId = "alice" →
        p ∈ getProjects [⟨"a", "n", "s", "alice", 1⟩,
          ⟨"b", "n", "s", "alice", 5⟩, ⟨"c", "n", "s", "bob", 3⟩] "alice")
    ∧ (getProjects [⟨"a", "n", "s", "alice", 1⟩, ⟨"b", "n", "s", "alice", 5⟩,
          ⟨"c", "n", "s", "bob", 3⟩] "alice").Pairwise
        (fun a b => b.createdAt ≤ a.createdAt))
    ∧ getProjects [⟨"a", "n", "s", "alice", 1⟩, ⟨"b", "n", "s", "alice", 5⟩,
        ⟨"c", "n", "s", "bob", 3⟩] "alice"
      = [⟨"b", "n", "s", "alice", 5⟩, ⟨"a", "n", "s", "alice", 1⟩] :=
  ⟨getProjects_exactly_owned_most_recent_first
      [⟨"a", "n", "s", "alice", 1⟩, ⟨"b", "n", "s", "alice", 5⟩,
        ⟨"c", "n", "s", "bob", 3⟩] "alice",
    by decide⟩

/-- C5 counterexample: a name consisting of one space is empty after
trimming, yet POST /projects creates the project — mongoose required does
not trim, so the claimed InvalidInput rejection does not happen. -/
theorem postProjects_whitespace_name_still_creates :
    jsTrim " " = ""
    ∧ (postProjects [] "alice" " " "You are helpful" "p1" 0).1
        = .ok ⟨"p1", " ", "You are helpful", "alice", 0⟩
    ∧ (postProjects [] "alice" " " "You are helpful" "p1" 0).2
        = [⟨"p1", " ", "You are helpful", "alice", 0⟩] :=
  ⟨by decide, rfl, rfl⟩

/-- C5 amended: creation fails exactly when name or systemPrompt is the
empty string — no trimming, and the failure is the generic 500 "Server
error", not a 400 InvalidInput — with the store left unchanged; otherwise
a project owned by the requesting user is appended to the store. -/
theorem postProjects_exact_empty_check
    (store : List Project) (userId name systemPrompt newId : String)
    (now : Nat) :
    (name = "" ∨ systemPrompt = "" →
        (postProjects store userId name systemPrompt newId now).1
            = .error (500, "Server error")
        ∧ (postProjects store userId name systemPrompt newId now).2 = store)
    ∧ (name ≠ "" → systemPrompt ≠ "" →
        (postProjects store userId name systemPrompt newId now).1
            = .ok ⟨newId, name, systemPrompt, userId, now⟩
        ∧ (postProjects store userId name systemPrompt newId now).2
            = store ++ [⟨newId, name, systemPrompt, userId, now⟩]
        ∧ (Project.mk newId name systemPrompt userId now).userId = userId)
    := by
  constructor
  · intro h
    unfold postProjects
    rw [if_pos h]
    exact ⟨rfl, rfl⟩
  · intro hn hs
    unfold postProjects
    rw [if_neg (by rintro (h | h) <;> [exact hn h; exact hs h])]
    exact ⟨rfl, rfl, rfl⟩

/-- C5 amended witness: nonempty name and prompt create an alice-owned
project and append it to the store. -/
theorem postProjects_exact_empty_check_witness :
    (postProjects [] "alice" "My Chatbot" "You are helpful" "p1" 5).1
        = .ok ⟨"p1", "My Chatbot", "You are helpful", "alice", 5⟩
    ∧ (postProjects [] "alice" "My Chatbot" "You are helpful" "p1" 5).2
        = [⟨"p1", "My Chatbot", "You are helpful", "alice", 5⟩]
    ∧ (Project.mk "p1" "My Chatbot" "You are helpful" "alice" 5).userId
        = "alice" :=
  (postProjects_exact_empty_check [] "alice" "My Chatbot" "You are helpful"
      "p1" 5).2 (by decide) (by decide)

/-- C6 counterexample: a history turn whose role is "banana" is forwarded
verbatim to the upstream provider and the call succeeds — no InvalidInput
rejection and no role validation happen before the upstream call. -/
theorem chat_invalid_role_forwarded_not_rejected :
    (postChat [⟨"p1", "proj", "PROMPT", "alice", 0⟩] "alice" "p1"
        [⟨"banana", "x"⟩] none (.ok ⟨none, ["reply"]⟩)).result = .ok "reply"
    ∧ (postChat [⟨"p1", "proj", "PROMPT", "alice", 0⟩] "alice" "p1"
        [⟨"banana", "x"⟩] none (.ok ⟨none, ["reply"]⟩)).upstreamRequests
      = [[⟨"system", "PROMPT"⟩, ⟨"banana", "x"⟩]] :=
  ⟨rfl, rfl⟩

/-- C6 amended: POST /chat performs no history validation at all: once the
project resolves, the caller messages — whatever their roles and however
many there are — are forwarded unchanged after the system turn, and the
handler never answers 400 InvalidInput (its only failure statuses are 404
and 500). -/
theorem chat_no_history_validation
    (store : List Project) (userId projectId : String) (msgs : List Message)
    (file : Option String) (up : UpstreamResult) :
    (∀ project, findOwnedProject store projectId userId = some project →
        (postChat store userId projectId msgs file up).upstreamRequests
          = [Message.mk "system" project.systemPrompt :: msgs])
    ∧ (∀ e, (postChat store userId projectId msgs file up).result
          = .error e → e.1 = 404 ∨ e.1 = 500) := by
  constructor
  · intro project hproj
    rw [postChat_requests_of_some msgs file up hproj]
    rfl
  · intro e he
    unfold postChat at he
    cases hfind : findOwnedProject store projectId userId with
    | none =>
      rw [hfind] at he
      injection he with h
      rw [← h]
      exact Or.inl rfl
    | some project =>
      rw [hfind] at he
      cases up with
      | netFailure =>
        injection he with h
        rw [← h]
        exact Or.inr rfl
      | ok data =>
        obtain ⟨em, ch⟩ := data
        cases em with
        | some m =>
          injection he with h
          rw [← h]
          exact Or.inr rfl
        | none =>
          cases ch with
          | nil =>
            injection he with h
            rw [← h]
            exact Or.inr rfl
          | cons t ts => exact absurd he (by simp)

/-- C6 amended witness: two turns with roles "banana" and "weird" are sent
upstream unchanged behind the system turn. -/
theorem chat_no_history_validation_witness :
    (postChat [⟨"p1", "proj", "PROMPT", "alice", 0⟩] "alice" "p1"
        [⟨"banana", "x"⟩, ⟨"weird", "y"⟩] none
        (.ok ⟨none, ["reply"]⟩)).upstreamRequests
      = [Message.mk "system" "PROMPT"
          :: [⟨"banana", "x"⟩, ⟨"weird", "y"⟩]] :=
  (chat_no_history_validation [⟨"p1", "proj", "PROMPT", "alice", 0⟩] "alice"
      "p1" [⟨"banana", "x"⟩, ⟨"weird", "y"⟩] none
      (.ok ⟨none, ["reply"]⟩)).1 ⟨"p1", "proj", "PROMPT", "alice", 0⟩
    (by decide)

/-- C7 counterexample: with empty text and no attachment, sendMessage is a
silent no-op — no upstream call, but also no toast and no state change —
so no InvalidInput rejection is ever signalled to anybody. -/
theorem sendMessage_empty_no_attachment_silent :
    sendMessage ⟨"", none, false⟩ [] (.error ()) = ⟨none, none, []⟩
    ∧ (sendMessage ⟨"", none, false⟩ [] (.error ())).toast = none :=
  ⟨rfl, rfl⟩

/-- C7 amended: with empty text and an attachment selected, the turn is sent
and its text is the fallback "Please analyze the uploaded file"; with
empty text and no attachment, sendMessage returns silently — no upstream
call, no error signal, message list untouched. -/
theorem sendMessage_empty_input_policy
    (messages : List Message) (f : String) (r : Except Unit String) :
    (sendMessage ⟨"", some f, false⟩ messages r).upstreamCall
        = some (messages ++ [⟨"user", "Please analyze the uploaded file"⟩])
    ∧ sendMessage ⟨"", none, false⟩ messages r = ⟨none, none, messages⟩ := by
  constructor
  · unfold sendMessage
    rw [if_neg (by simp)]
    cases r <;> rfl
  · unfold sendMessage
    rw [if_pos (Or.inl ⟨by decide, rfl⟩)]

/-- C7 amended witness: with one history turn, a selected file and empty
text, the posted body ends with the fallback turn; without a file the
invocation is the silent no-op. -/
theorem sendMessage_empty_input_policy_witness :
    (sendMessage ⟨"", some "notes.pdf", false⟩ [⟨"user", "hi"⟩]
        (.ok "done")).upstreamCall
      = some [⟨"user", "hi"⟩, ⟨"user", "Please analyze the uploaded file"⟩]
    ∧ sendMessage ⟨"", none, false⟩ [⟨"user", "hi"⟩] (.ok "done")
      = ⟨none, none, [⟨"user", "hi"⟩]⟩ :=
  sendMessage_empty_input_policy [⟨"user", "hi"⟩] "notes.pdf" (.ok "done")

/-- C8 counterexample: the same call with and without an attachment produces
the identical outcome, and the upstream request carries nothing derived
from the attachment — its content is never decoded or made available. -/
theorem chat_attachment_never_decoded :
    postChat [⟨"p1", "proj", "PROMPT", "alice", 0⟩] "alice" "p1"
        [⟨"user", "hi"⟩] (some "ATTACHMENT-CONTENT") (.ok ⟨none, ["reply"]⟩)
      = postChat [⟨"p1", "proj", "PROMPT", "alice", 0⟩] "alice" "p1"
        [⟨"user", "hi"⟩] none (.ok ⟨none, ["reply"]⟩)
    ∧ (postChat [⟨"p1", "proj", "PROMPT", "alice", 0⟩] "alice" "p1"
        [⟨"user", "hi"⟩] (some "ATTACHMENT-CONTENT")
        (.ok ⟨none, ["reply"]⟩)).upstreamRequests
      = [[⟨"system", "PROMPT"⟩, ⟨"user", "hi"⟩]] :=
  ⟨rfl, rfl⟩

/-- C8 amended: the backend never reads the uploaded file: the outcome of
POST /chat is invariant under the attachment, and every turn of every
upstream request is either a caller message or the system turn — no
extracted text and no could-not-read note is ever added. -/
theorem chat_ignores_attachment
    (store : List Project) (userId projectId : String) (msgs : List Message)
    (f : String) (up : UpstreamResult) :
    postChat store userId projectId msgs (some f) up
      = postChat store userId projectId msgs none up
    ∧ ∀ req ∈ (postChat store userId projectId msgs (some f) up
          ).upstreamRequests, ∀ m ∈ req,
        m ∈ msgs ∨ ∃ project,
          findOwnedProject store projectId userId = some project
          ∧ m = ⟨"system", project.systemPrompt⟩ := by
  refine ⟨rfl, ?_⟩
  intro req hreq m hm
  cases hfind : findOwnedProject store projectId userId with
  | none =>
    rw [postChat_requests_of_none msgs (some f) up hfind] at hreq
    exact absurd hreq (List.not_mem_nil req)
  | some project =>
    rw [postChat_requests_of_some msgs (some f) up hfind] at hreq
    rw [List.mem_singleton] at hreq
    rw [hreq] at hm
    rw [upstreamPayload, List.mem_cons] at hm
    cases hm with
    | inl h => exact Or.inr ⟨project, rfl, h⟩
    | inr h => exact Or.inl h

/-- C8 amended witness: at a concrete call the attachment-invariance and the
no-added-content property instantiate to a closed statement. -/
theorem chat_ignores_attachment_witness :
    postChat [⟨"p1", "proj", "PROMPT", "alice", 0⟩] "alice" "p1"
        [⟨"user", "hi"⟩] (some "FILE") .netFailure
      = postChat [⟨"p1", "proj", "PROMPT", "alice", 0⟩] "alice" "p1"
        [⟨"user", "hi"⟩] none .netFailure
    ∧ ∀ req ∈ (postChat [⟨"p1", "proj", "PROMPT", "alice", 0⟩] "alice" "p1"
          [⟨"user", "hi"⟩] (some "FILE") .netFailure).upstreamRequests,
        ∀ m ∈ req, m ∈ [Message.mk "user" "hi"] ∨ ∃ project,
          findOwnedProject [⟨"p1", "proj", "PROMPT", "alice", 0⟩] "p1"
              "alice" = some project
          ∧ m = ⟨"system", project.systemPrompt⟩ :=
  chat_ignores_attachment [⟨"p1", "proj", "PROMPT", "alice", 0⟩] "alice"
    "p1" [⟨"user", "hi"⟩] "FILE" .netFailure

/-- C9 counterexample: an upstream transport failure — which is all a
timed-out call ever looks like to the handler, since the code configures
no timeout — surfaces as the generic 500 "Failed to get response", the
very same result as a malformed upstream body: there is no UpstreamTimeout
signal the caller could receive. -/
theorem chat_timeout_surfaces_generic_500 :
    (postChat [⟨"p1", "proj", "PROMPT", "alice", 0⟩] "alice" "p1"
        [⟨"user", "hi"⟩] none .netFailure).result
      = .error (500, "Failed to get response")
    ∧ (postChat [⟨"p1", "proj", "PROMPT", "alice", 0⟩] "alice" "p1"
        [⟨"user", "hi"⟩] none .netFailure).result
      = (postChat [⟨"p1", "proj", "PROMPT", "alice", 0⟩] "alice" "p1"
          [⟨"user", "hi"⟩] none (.ok ⟨none, []⟩)).result :=
  ⟨rfl, rfl⟩

/-- C9 amended: the store is never mutated by a chat call, the upstream call
is attempted at most once (so never retried), and a transport-level
failure of that one call — the only form a timeout can take, no timeout
being configured — surfaces to the caller as the generic 500
"Failed to get response". -/
theorem chat_no_retry_no_mutation_generic_failure
    (store : List Project) (userId projectId : String) (msgs : List Message)
    (file : Option String) (up : UpstreamResult) :
    (postChat store userId projectId msgs file up).finalStore = store
    ∧ (postChat store userId projectId msgs file up
        ).upstreamRequests.length ≤ 1
    ∧ (∀ project, findOwnedProject store projectId userId = some project →
        (postChat store userId projectId msgs file .netFailure).result
          = .error (500, "Failed to get response")) := by
  refine ⟨postChat_finalStore store userId projectId msgs file up, ?_, ?_⟩
  · cases hfind : findOwnedProject store projectId userId with
    | none =>
      rw [postChat_requests_of_none msgs file up hfind]
      exact Nat.zero_le 1
    | some project =>
      rw [postChat_requests_of_some msgs file up hfind]
      exact Nat.le_refl 1
  · intro project hproj
    unfold postChat
    rw [hproj]

/-- C9 amended witness: at a concrete failing call the store is unchanged,
exactly one upstream attempt was made, and the result is the generic 500. -/
theorem chat_no_retry_no_mutation_generic_failure_witness :
    (postChat [⟨"p1", "proj", "PROMPT", "alice", 0⟩] "alice" "p1"
        [⟨"user", "hi"⟩] none .netFailure).finalStore
      = [⟨"p1", "proj", "PROMPT", "alice", 0⟩]
    ∧ (postChat [⟨"p1", "proj", "PROMPT", "alice", 0⟩] "alice" "p1"
        [⟨"user", "hi"⟩] none .netFailure).upstreamRequests.length ≤ 1
    ∧ (∀ project, findOwnedProject [⟨"p1", "proj", "PROMPT", "alice", 0⟩]
          "p1" "alice" = some project →
        (postChat [⟨"p1", "proj", "PROMPT", "alice", 0⟩] "alice" "p1"
            [⟨"user", "hi"⟩] none .netFailure).result
          = .error (500, "Failed to get response")) :=
  chat_no_retry_no_mutation_generic_failure
    [⟨"p1", "proj", "PROMPT", "alice", 0⟩] "alice" "p1" [⟨"user", "hi"⟩]
    none .netFailure

/-- C10: whenever the textarea text trims to empty the Send button is
disabled — the selected file is not consulted — so clicking Send does
nothing; yet the Enter key path still calls sendMessage, which does send a
file-only turn when a file is selected and no send is in flight. -/
theorem send_button_requires_text
    (s : ChatState) (messages : List Message) (r : Except Unit String)
    (hempty : jsTrim s.input = "") :
    sendButtonDisabled s = true
    ∧ clickSend s messages r = ⟨none, none, messages⟩
    ∧ (s.isSending = false → s.selectedFile ≠ none →
        (handleKeyDown "Enter" false s messages r).upstreamCall
          = some (messages ++ [buildUserMessage s.input])) := by
  have hd : sendButtonDisabled s = true := by
    unfold sendButtonDisabled
    rw [hempty]
    simp
  refine ⟨hd, ?_, ?_⟩
  · unfold clickSend
    rw [hd]
    rfl
  · intro hsend hfile
    unfold handleKeyDown
    rw [if_pos ⟨rfl, rfl⟩]
    unfold sendMessage
    rw [if_neg ?_]
    · cases r <;> rfl
    · rintro (⟨-, hnone⟩ | hs)
      · exact hfile hnone
      · rw [hsend] at hs
        exact Bool.false_ne_true hs

/-- C10 witness: with empty text, a selected file and no send in flight, the
button is disabled, clicking it does nothing, and the Enter key posts the
file-only turn with the fallback text. -/
theorem send_button_requires_text_witness :
    sendButtonDisabled ⟨"", some "doc.pdf", false⟩ = true
    ∧ clickSend ⟨"", some "doc.pdf", false⟩ [] (.ok "reply")
      = ⟨none, none, []⟩
    ∧ (handleKeyDown "Enter" false ⟨"", some "doc.pdf", false⟩ []
        (.ok "reply")).upstreamCall
      = some [⟨"user", "Please analyze the uploaded file"⟩] := by
  have h := send_button_requires_text ⟨"", some "doc.pdf", false⟩ []
    (.ok "reply") (by decide)
  refine ⟨h.1, h.2.1, ?_⟩
  have h3 := h.2.2 rfl (by decide)
  simpa [buildUserMessage, jsOrString] using h3

end ChatBot
